import Mathlib

/-!
Shallow embedding of the Checkout connector adapter
(crates/hyperswitch_connectors/src/connectors/checkout.rs) and proofs of the
specified properties.  Rust machine values are modelled as follows: strings as
String, i32 as Int, Option as Option, Result/CustomResult as Except,
secret-wrapped strings as plain String (peek is the identity).  Helpers that
live in crates of this repository outside the provided sources (the
transformers module, crate-level utils, common enums) are modelled from the
specification; each such definition carries a doc comment starting with
Modelled from the spec.
-/

namespace CheckoutSpec

/-- Connector error taxonomy from hyperswitch_interfaces::errors, restricted
to the variants the Checkout adapter uses. -/
inductive ConnectorError where
  | FailedToObtainAuthType
  | ResponseDeserializationFailed
  | ResponseHandlingFailed
  | NotImplemented (msg : String)
  | FileValidationFailed (reason : String)
  | WebhookSignatureNotFound
  | WebhookReferenceIdNotFound
  | WebhookEventTypeNotFound
  | WebhookBodyDecodingFailed
  | MissingConnectorTransactionID
  | MissingRequiredField (field_name : String)
  deriving DecidableEq

/-- Retry-relevant error taxonomy (crate utils ConnectorErrorType). -/
inductive ConnectorErrorType where
  | UserError
  | BusinessError
  | TechnicalError
  | UnknownError
  deriving DecidableEq

/-- The static classification table of get_connector_error_type, one entry per
match arm of the source, in source order (checkout.rs lines 1336-1448). -/
def checkout_error_table : List (String × ConnectorErrorType) := [
    ("action_failure_limit_exceeded", ConnectorErrorType.BusinessError),
    ("address_invalid", ConnectorErrorType.UserError),
    ("amount_exceeds_balance", ConnectorErrorType.BusinessError),
    ("amount_invalid", ConnectorErrorType.UserError),
    ("api_calls_quota_exceeded", ConnectorErrorType.TechnicalError),
    ("billing_descriptor_city_invalid", ConnectorErrorType.UserError),
    ("billing_descriptor_city_required", ConnectorErrorType.UserError),
    ("billing_descriptor_name_invalid", ConnectorErrorType.UserError),
    ("billing_descriptor_name_required", ConnectorErrorType.UserError),
    ("business_invalid", ConnectorErrorType.BusinessError),
    ("business_settings_missing", ConnectorErrorType.BusinessError),
    ("capture_value_greater_than_authorized", ConnectorErrorType.BusinessError),
    ("capture_value_greater_than_remaining_authorized", ConnectorErrorType.BusinessError),
    ("card_authorization_failed", ConnectorErrorType.UserError),
    ("card_disabled", ConnectorErrorType.UserError),
    ("card_expired", ConnectorErrorType.UserError),
    ("card_expiry_month_invalid", ConnectorErrorType.UserError),
    ("card_expiry_month_required", ConnectorErrorType.UserError),
    ("card_expiry_year_invalid", ConnectorErrorType.UserError),
    ("card_expiry_year_required", ConnectorErrorType.UserError),
    ("card_holder_invalid", ConnectorErrorType.UserError),
    ("card_not_found", ConnectorErrorType.UserError),
    ("card_number_invalid", ConnectorErrorType.UserError),
    ("card_number_required", ConnectorErrorType.UserError),
    ("channel_details_invalid", ConnectorErrorType.BusinessError),
    ("channel_url_missing", ConnectorErrorType.BusinessError),
    ("charge_details_invalid", ConnectorErrorType.BusinessError),
    ("city_invalid", ConnectorErrorType.BusinessError),
    ("country_address_invalid", ConnectorErrorType.UserError),
    ("country_invalid", ConnectorErrorType.UserError),
    ("country_phone_code_invalid", ConnectorErrorType.UserError),
    ("country_phone_code_length_invalid", ConnectorErrorType.UserError),
    ("currency_invalid", ConnectorErrorType.UserError),
    ("currency_required", ConnectorErrorType.UserError),
    ("customer_already_exists", ConnectorErrorType.BusinessError),
    ("customer_email_invalid", ConnectorErrorType.UserError),
    ("customer_id_invalid", ConnectorErrorType.BusinessError),
    ("customer_not_found", ConnectorErrorType.BusinessError),
    ("customer_number_invalid", ConnectorErrorType.UserError),
    ("customer_plan_edit_failed", ConnectorErrorType.BusinessError),
    ("customer_plan_id_invalid", ConnectorErrorType.BusinessError),
    ("cvv_invalid", ConnectorErrorType.UserError),
    ("email_in_use", ConnectorErrorType.BusinessError),
    ("email_invalid", ConnectorErrorType.UserError),
    ("email_required", ConnectorErrorType.UserError),
    ("endpoint_invalid", ConnectorErrorType.TechnicalError),
    ("expiry_date_format_invalid", ConnectorErrorType.UserError),
    ("fail_url_invalid", ConnectorErrorType.TechnicalError),
    ("first_name_required", ConnectorErrorType.UserError),
    ("last_name_required", ConnectorErrorType.UserError),
    ("ip_address_invalid", ConnectorErrorType.UserError),
    ("issuer_network_unavailable", ConnectorErrorType.TechnicalError),
    ("metadata_key_invalid", ConnectorErrorType.BusinessError),
    ("parameter_invalid", ConnectorErrorType.UserError),
    ("password_invalid", ConnectorErrorType.UserError),
    ("payment_expired", ConnectorErrorType.BusinessError),
    ("payment_invalid", ConnectorErrorType.BusinessError),
    ("payment_method_invalid", ConnectorErrorType.UserError),
    ("payment_source_required", ConnectorErrorType.UserError),
    ("payment_type_invalid", ConnectorErrorType.UserError),
    ("phone_number_invalid", ConnectorErrorType.UserError),
    ("phone_number_length_invalid", ConnectorErrorType.UserError),
    ("previous_payment_id_invalid", ConnectorErrorType.BusinessError),
    ("recipient_account_number_invalid", ConnectorErrorType.BusinessError),
    ("recipient_account_number_required", ConnectorErrorType.UserError),
    ("recipient_dob_required", ConnectorErrorType.UserError),
    ("recipient_last_name_required", ConnectorErrorType.UserError),
    ("recipient_zip_invalid", ConnectorErrorType.UserError),
    ("recipient_zip_required", ConnectorErrorType.UserError),
    ("recurring_plan_exists", ConnectorErrorType.BusinessError),
    ("recurring_plan_not_exist", ConnectorErrorType.BusinessError),
    ("recurring_plan_removal_failed", ConnectorErrorType.BusinessError),
    ("request_invalid", ConnectorErrorType.UserError),
    ("request_json_invalid", ConnectorErrorType.UserError),
    ("risk_enabled_required", ConnectorErrorType.BusinessError),
    ("server_api_not_allowed", ConnectorErrorType.TechnicalError),
    ("source_email_invalid", ConnectorErrorType.UserError),
    ("source_email_required", ConnectorErrorType.UserError),
    ("source_id_invalid", ConnectorErrorType.BusinessError),
    ("source_id_or_email_required", ConnectorErrorType.UserError),
    ("source_id_required", ConnectorErrorType.UserError),
    ("source_id_unknown", ConnectorErrorType.BusinessError),
    ("source_invalid", ConnectorErrorType.BusinessError),
    ("source_or_destination_required", ConnectorErrorType.BusinessError),
    ("source_token_invalid", ConnectorErrorType.BusinessError),
    ("source_token_required", ConnectorErrorType.UserError),
    ("source_token_type_required", ConnectorErrorType.UserError),
    ("source_token_type_invalid", ConnectorErrorType.BusinessError),
    ("source_type_required", ConnectorErrorType.UserError),
    ("sub_entities_count_invalid", ConnectorErrorType.BusinessError),
    ("success_url_invalid", ConnectorErrorType.BusinessError),
    ("3ds_malfunction", ConnectorErrorType.TechnicalError),
    ("3ds_not_configured", ConnectorErrorType.BusinessError),
    ("3ds_not_enabled_for_card", ConnectorErrorType.BusinessError),
    ("3ds_not_supported", ConnectorErrorType.BusinessError),
    ("3ds_payment_required", ConnectorErrorType.BusinessError),
    ("token_expired", ConnectorErrorType.BusinessError),
    ("token_in_use", ConnectorErrorType.BusinessError),
    ("token_invalid", ConnectorErrorType.BusinessError),
    ("token_required", ConnectorErrorType.UserError),
    ("token_type_required", ConnectorErrorType.UserError),
    ("token_used", ConnectorErrorType.BusinessError),
    ("void_amount_invalid", ConnectorErrorType.BusinessError),
    ("wallet_id_invalid", ConnectorErrorType.BusinessError),
    ("zip_invalid", ConnectorErrorType.UserError),
    ("processing_key_required", ConnectorErrorType.BusinessError),
    ("processing_value_required", ConnectorErrorType.BusinessError),
    ("3ds_version_invalid", ConnectorErrorType.BusinessError),
    ("3ds_version_not_supported", ConnectorErrorType.BusinessError),
    ("processing_error", ConnectorErrorType.TechnicalError),
    ("service_unavailable", ConnectorErrorType.TechnicalError),
    ("token_type_invalid", ConnectorErrorType.UserError),
    ("token_data_invalid", ConnectorErrorType.UserError)
]

/-- Error classification of the Checkout adapter
(ConnectorErrorTypeMapping::get_connector_error_type).  The source is a match
on the error-code string whose arms have pairwise distinct literal patterns
and a wildcard arm returning UnknownError; this is exactly an association-list
lookup with default. -/
def get_connector_error_type (error_code : String) (_error_message : String) :
    ConnectorErrorType :=
  (checkout_error_table.lookup error_code).getD ConnectorErrorType.UnknownError

/-- Capture methods (common_enums::CaptureMethod; the enum is declared in a
crate outside the provided sources, its five variants are named by the spec
and the source match). -/
inductive CaptureMethod where
  | Automatic
  | SequentialAutomatic
  | Manual
  | ManualMultiple
  | Scheduled
  deriving DecidableEq

/-- Display name of a capture method, used in error reports. -/
def CaptureMethod.display : CaptureMethod → String
  | .Automatic => "automatic"
  | .SequentialAutomatic => "sequential_automatic"
  | .Manual => "manual"
  | .ManualMultiple => "manual_multiple"
  | .Scheduled => "scheduled"

/-- Modelled from the spec: the Default value of common_enums::CaptureMethod
(derived in a crate outside the provided sources); the spec treats Automatic
as the default capture method. -/
def default_capture_method : CaptureMethod := CaptureMethod.Automatic

/-- Modelled from the spec: utils::construct_not_implemented_error_report
(crate utils, outside the provided sources) builds a structured
not-implemented error naming both the capture method and the connector id. -/
def construct_not_implemented_error_report
    (capture_method : CaptureMethod) (connector : String) : ConnectorError :=
  ConnectorError.NotImplemented
    (capture_method.display ++ (" not implemented for connector: ") ++ connector)

/-- The stable connector identifier (ConnectorCommon::id). -/
def checkout_id : String := "checkout"

/-- ConnectorValidation::validate_connector_against_payment_request
(checkout.rs lines 192-209): unwrap_or_default on the capture method, then
accept Automatic, SequentialAutomatic, Manual and ManualMultiple and reject
Scheduled with a not-implemented report. -/
def validate_connector_against_payment_request
    (capture_method : Option CaptureMethod) : Except ConnectorError Unit :=
  match capture_method.getD default_capture_method with
  | .Automatic | .SequentialAutomatic | .Manual | .ManualMultiple => .ok ()
  | .Scheduled =>
      .error (construct_not_implemented_error_report .Scheduled checkout_id)

/-- File purposes (hyperswitch_interfaces FilePurpose); the source match has
the single arm DisputeEvidence. -/
inductive FilePurpose where
  | DisputeEvidence
  deriving DecidableEq

/-- The MIME allow-list of validate_file_upload (checkout.rs line 936). -/
def supported_file_types : List String :=
  ["image/jpeg", "image/jpg", "image/png", "application/pdf"]

/-- FileUpload::validate_file_upload (checkout.rs lines 927-951): for
DisputeEvidence, reject a file size above 4000000 bytes, then reject a MIME
type outside the allow-list, else accept.  The Rust file_size is an i32,
modelled as Int; the mime::Mime value is compared through its string
rendering, modelled as String. -/
def validate_file_upload (purpose : FilePurpose) (file_size : Int)
    (file_type : String) : Except ConnectorError Unit :=
  match purpose with
  | .DisputeEvidence =>
    if file_size > 4000000 then
      .error (ConnectorError.FileValidationFailed
        ("file_size exceeded the max file size of 4MB"))
    else if (supported_file_types.contains file_type) = false then
      .error (ConnectorError.FileValidationFailed
        ("file_type does not match JPEG, JPG, PNG, or PDF format"))
    else .ok ()

/-- Polymorphic connector credentials (hyperswitch_domain_models
ConnectorAuthType; the enum is declared in a crate outside the provided
sources, its shapes are named by the spec as a closed set of credential
shapes, for example bearer secret and key+secret pairs). -/
inductive ConnectorAuthType where
  | HeaderKey (api_key : String)
  | BodyKey (api_key : String) (key1 : String)
  | SignatureKey (api_key : String) (key1 : String) (api_secret : String)
  | NoKey
  deriving DecidableEq

/-- Credential shape of the Checkout adapter (transformers
CheckoutAuthType): an api key, a processing channel id and an api secret. -/
structure CheckoutAuthType where
  api_key : String
  processing_channel_id : String
  api_secret : String
  deriving DecidableEq

/-- Modelled from the spec: CheckoutAuthType::try_from (transformers module,
outside the provided sources) accepts exactly one credential variant, the
key+secret SignatureKey shape, and fails classification otherwise. -/
def CheckoutAuthType.try_from (auth_type : ConnectorAuthType) :
    Except ConnectorError CheckoutAuthType :=
  match auth_type with
  | .SignatureKey api_key key1 api_secret =>
      .ok { api_key := api_key, processing_channel_id := key1,
            api_secret := api_secret }
  | _ => .error ConnectorError.FailedToObtainAuthType

/-- Header name constants (crate constants::headers, referenced from the
source). -/
def AUTHORIZATION : String := "Authorization"

/-- Header name constant for the content type header. -/
def CONTENT_TYPE : String := "Content-Type"

/-- ConnectorCommon::common_get_content_type (checkout.rs line 115). -/
def common_get_content_type : String := "application/json"

/-- ConnectorCommon::get_auth_header (checkout.rs lines 118-128): classify the
credentials as CheckoutAuthType, then emit a single Authorization header whose
value is Bearer followed by the api secret. -/
def get_auth_header (auth_type : ConnectorAuthType) :
    Except ConnectorError (List (String × String)) :=
  match CheckoutAuthType.try_from auth_type with
  | .error e => .error e
  | .ok auth => .ok [(AUTHORIZATION, ("Bearer ") ++ auth.api_secret)]

/-- ConnectorCommonExt::build_headers (checkout.rs lines 88-102): a content
type header followed by the auth headers; used by every JSON flow of the
adapter other than Tokenize and the dispute flows, which inline the same
construction. -/
def build_headers (auth_type : ConnectorAuthType) :
    Except ConnectorError (List (String × String)) :=
  match get_auth_header auth_type with
  | .error e => .error e
  | .ok api_key => .ok ([(CONTENT_TYPE, common_get_content_type)] ++ api_key)

/-- Tokenize get_headers (checkout.rs lines 229-246): a content type header,
then an Authorization header built from the api KEY field of the classified
credentials (note: the api key, not the api secret). -/
def tokenization_get_headers (auth_type : ConnectorAuthType) :
    Except ConnectorError (List (String × String)) :=
  match CheckoutAuthType.try_from auth_type with
  | .error e => .error e
  | .ok api_key =>
      .ok ([(CONTENT_TYPE, common_get_content_type)] ++
           [(AUTHORIZATION, ("Bearer ") ++ api_key.api_key)])

/-- Raw HTTP response handed to the adapter by the transport
(hyperswitch_interfaces types::Response): status code plus raw body bytes. -/
structure HttpResponse where
  status_code : Nat
  response : List Nat
  deriving DecidableEq

/-- Attempt status values (common_enums AttemptStatus); the generic error
builder always leaves the field unset, so a single representative variant
suffices for the embedding. -/
inductive AttemptStatus where
  | Failure
  deriving DecidableEq

/-- Canonical error response (hyperswitch_domain_models ErrorResponse). -/
structure ErrorResponse where
  status_code : Nat
  code : String
  message : String
  reason : Option String
  attempt_status : Option AttemptStatus
  connector_transaction_id : Option String
  network_advice_code : Option String
  network_decline_code : Option String
  network_error_message : Option String
  deriving DecidableEq

/-- Processor error schema (transformers CheckoutErrorResponse): an optional
request id, an optional list of error code strings, an optional error type
string.  Its three fields are read directly by build_error_response in the
provided source. -/
structure CheckoutErrorResponse where
  request_id : Option String
  error_codes : Option (List String)
  error_type : Option String
  deriving DecidableEq

/-- An error code and message pair (crate utils ErrorCodeAndMessage). -/
structure ErrorCodeAndMessage where
  error_code : String
  error_message : String
  deriving DecidableEq

/-- Modelled from the spec: the From conversion of an upstream error string
into an ErrorCodeAndMessage pair (crate utils, outside the provided sources);
the single upstream string serves as both code and message. -/
def error_code_and_message_of_string (s : String) : ErrorCodeAndMessage :=
  { error_code := s, error_message := s }

/-- Priority rank of an error type; lower rank is surfaced first. -/
def error_type_priority : ConnectorErrorType → Nat
  | .UserError => 0
  | .BusinessError => 1
  | .TechnicalError => 2
  | .UnknownError => 3

/-- Modelled from the spec: utils
get_error_code_error_message_based_on_priority (crate utils, outside the
provided sources) deterministically picks the single highest-priority
code/message pair from the list, classifying each code through the connector
error-type table; it returns none on an empty list. -/
def get_error_code_error_message_based_on_priority
    (error_list : List ErrorCodeAndMessage) : Option ErrorCodeAndMessage :=
  error_list.foldl
    (fun acc e =>
      match acc with
      | none => some e
      | some b =>
        if error_type_priority (get_connector_error_type e.error_code e.error_message) <
           error_type_priority (get_connector_error_type b.error_code b.error_message)
        then some e else acc)
    none

/-- Sentinel used when no upstream error code is available
(hyperswitch_interfaces consts::NO_ERROR_CODE). -/
def NO_ERROR_CODE : String := "No error code"

/-- Sentinel used when no upstream error message is available
(hyperswitch_interfaces consts::NO_ERROR_MESSAGE). -/
def NO_ERROR_MESSAGE : String := "No error message"

/-- The synthesized (error_codes, error_type) pair for an empty-body response
(checkout.rs lines 139-146): for status 401 a single invalid-api-key entry,
otherwise nothing. -/
def empty_body_error_codes (status_code : Nat) :
    Option (List String) × Option String :=
  if status_code == 401 then
    (some [("Invalid api key")], some ("invalid_api_key"))
  else (none, none)

/-- ConnectorCommon::build_error_response (checkout.rs lines 133-188).  The
JSON decoding of a nonempty body is performed by an external serde parser;
the embedding receives its outcome as the parse_result argument, which is
consulted only when the body is nonempty. -/
def build_error_response
    (parse_result : Except ConnectorError CheckoutErrorResponse)
    (res : HttpResponse) : Except ConnectorError ErrorResponse :=
  match (if res.response.isEmpty then
          .ok { request_id := none,
                error_codes := (empty_body_error_codes res.status_code).1,
                error_type := (empty_body_error_codes res.status_code).2 }
         else parse_result : Except ConnectorError CheckoutErrorResponse) with
  | .error e => .error e
  | .ok response =>
  let errors_list := response.error_codes.getD []
  let option_error_code_message :=
    get_error_code_error_message_based_on_priority
      (errors_list.map error_code_and_message_of_string)
  .ok {
    status_code := res.status_code
    code := (option_error_code_message.map (fun e => e.error_code)).getD NO_ERROR_CODE
    message := (option_error_code_message.map (fun e => e.error_message)).getD NO_ERROR_MESSAGE
    reason := (response.error_codes.map (fun errs => String.intercalate (" & ") errs)).or
      response.error_type
    attempt_status := none
    connector_transaction_id := response.request_id
    network_advice_code := none
    network_decline_code := none
    network_error_message := none }

/-- The per-call envelope (hyperswitch_domain_models RouterData), restricted
to the fields the embedded flows touch plus representative frame fields: the
merchant id and reference id stand for the request half that handle_response
must leave untouched. -/
structure RouterData (Req Resp : Type) where
  merchant_id : String
  connector_request_reference_id : String
  connector_auth_type : ConnectorAuthType
  request : Req
  response : Except ErrorResponse Resp

/-- Dispute status values (common_enums DisputeStatus, the variants the
adapter emits plus a distinct initial one). -/
inductive DisputeStatus where
  | DisputeOpened
  | DisputeAccepted
  | DisputeChallenged
  | DisputeWon
  | DisputeLost
  deriving DecidableEq

/-- Request payload of the DisputeAccept flow. -/
structure AcceptDisputeRequestData where
  connector_dispute_id : String
  deriving DecidableEq

/-- Canonical response of the DisputeAccept flow. -/
structure AcceptDisputeResponse where
  dispute_status : DisputeStatus
  connector_status : Option String
  deriving DecidableEq

/-- Request payload of the SubmitEvidence flow (evidence fields elided; the
handler never reads them). -/
structure SubmitEvidenceRequestData where
  connector_dispute_id : String
  submit_evidence_text : Option String
  deriving DecidableEq

/-- Canonical response of the SubmitEvidence flow. -/
structure SubmitEvidenceResponse where
  dispute_status : DisputeStatus
  connector_status : Option String
  deriving DecidableEq

/-- Request payload of the DisputeDefend flow. -/
structure DefendDisputeRequestData where
  connector_dispute_id : String
  deriving DecidableEq

/-- Canonical response of the DisputeDefend flow. -/
structure DefendDisputeResponse where
  dispute_status : DisputeStatus
  connector_status : Option String
  deriving DecidableEq

/-- DisputeAccept handle_response (checkout.rs lines 897-910): ignore the raw
response entirely and return the input data with only its response slot
replaced by a synthesized DisputeAccepted success. -/
def accept_dispute_handle_response
    (data : RouterData AcceptDisputeRequestData AcceptDisputeResponse)
    (_res : HttpResponse) :
    Except ConnectorError (RouterData AcceptDisputeRequestData AcceptDisputeResponse) :=
  .ok { data with
    response := .ok { dispute_status := DisputeStatus.DisputeAccepted,
                      connector_status := none } }

/-- SubmitEvidence handle_response (checkout.rs lines 1089-1102): ignore the
raw response entirely and return the input data with only its response slot
replaced by a synthesized DisputeChallenged success. -/
def submit_evidence_handle_response
    (data : RouterData SubmitEvidenceRequestData SubmitEvidenceResponse)
    (_res : HttpResponse) :
    Except ConnectorError (RouterData SubmitEvidenceRequestData SubmitEvidenceResponse) :=
  .ok { data with
    response := .ok { dispute_status := DisputeStatus.DisputeChallenged,
                      connector_status := none } }

/-- DisputeDefend handle_response (checkout.rs lines 1155-1168): ignore the
raw response entirely and return the input data with only its response slot
replaced by a synthesized DisputeChallenged success. -/
def defend_dispute_handle_response
    (data : RouterData DefendDisputeRequestData DefendDisputeResponse)
    (_res : HttpResponse) :
    Except ConnectorError (RouterData DefendDisputeRequestData DefendDisputeResponse) :=
  .ok { data with
    response := .ok { dispute_status := DisputeStatus.DisputeChallenged,
                      connector_status := none } }

/-- Refund request payload (hyperswitch_domain_models RefundsData, the fields
the RSync flow reads). -/
structure RefundsData where
  connector_transaction_id : String
  connector_refund_id : Option String
  deriving DecidableEq

/-- Modelled from the spec: utils RefundsRequestData::get_connector_refund_id
(crate utils, outside the provided sources) returns the tracked connector
refund (action) id, failing with a missing-required-field error when the
refund does not carry one. -/
def RefundsData.get_connector_refund_id (r : RefundsData) :
    Except ConnectorError String :=
  match r.connector_refund_id with
  | some id => .ok id
  | none => .error (ConnectorError.MissingRequiredField ("connector_refund_id"))

/-- One upstream per-action record (transformers ActionResponse): the action
id identifying the sub-operation, whether the processor approved it, and an
optional merchant reference.  The fields beyond action_id are modelled from
the spec (the transformers module is outside the provided sources). -/
structure ActionResponse where
  action_id : String
  approved : Bool
  reference : Option String
  deriving DecidableEq

/-- Canonical refund status values. -/
inductive RefundStatus where
  | Success
  | Failure
  | Pending
  deriving DecidableEq

/-- Canonical refund response (hyperswitch_domain_models
RefundsResponseData). -/
structure RefundsResponseData where
  connector_refund_id : String
  refund_status : RefundStatus
  deriving DecidableEq

/-- Modelled from the spec: the lossless conversion of the single matched
action record into the canonical refund response (the TryFrom impl lives in
the transformers module, outside the provided sources). -/
def refund_response_of_action (a : ActionResponse) : RefundsResponseData :=
  { connector_refund_id := a.action_id,
    refund_status := if a.approved then RefundStatus.Success
                     else RefundStatus.Failure }

/-- RefundSync handle_response (checkout.rs lines 816-842): read the tracked
connector refund id, then locate the first upstream action record whose
action_id equals it, failing with ResponseHandlingFailed when none matches;
the canonical response is built from that single record.  The upstream body
has already been decoded into the list of action records (the serde decoding
of the raw bytes is external); a response that parses as a list is passed in
as parsed. -/
def rsync_handle_response
    (data : RouterData RefundsData RefundsResponseData)
    (parsed : List ActionResponse) :
    Except ConnectorError (RouterData RefundsData RefundsResponseData) :=
  match data.request.get_connector_refund_id with
  | .error e => .error e
  | .ok refund_action_id =>
    match parsed.find? (fun x => x.action_id == refund_action_id) with
    | some a => .ok { data with response := .ok (refund_response_of_action a) }
    | none => .error ConnectorError.ResponseHandlingFailed

/-- Sync request discriminant (hyperswitch_domain_models SyncRequestType):
either a sync of multiple captures, carrying the pending capture ids, or a
single payment sync. -/
inductive SyncRequestType where
  | MultipleCaptureSync (capture_ids : List String)
  | SinglePaymentSync
  deriving DecidableEq

/-- Whether a sync request targets multiple captures. -/
def SyncRequestType.is_multiple_capture : SyncRequestType → Bool
  | .MultipleCaptureSync _ => true
  | .SinglePaymentSync => false

/-- Upstream transaction id slot (hyperswitch_domain_models ResponseId). -/
inductive ResponseId where
  | ConnectorTransactionId (id : String)
  | NoResponseId
  deriving DecidableEq

/-- Modelled from the spec: ResponseId::get_connector_transaction_id (domain
models crate, outside the provided sources) returns the upstream transaction
id or fails; the source wraps the failure into
MissingConnectorTransactionID. -/
def ResponseId.get_connector_transaction_id (r : ResponseId) :
    Except ConnectorError String :=
  match r with
  | .ConnectorTransactionId id => .ok id
  | .NoResponseId => .error ConnectorError.MissingConnectorTransactionID

/-- Payment sync request payload (hyperswitch_domain_models
PaymentsSyncData, the fields the PSync flow reads). -/
structure PaymentsSyncData where
  connector_transaction_id : ResponseId
  sync_type : SyncRequestType
  deriving DecidableEq

/-- PaymentSync get_url (checkout.rs lines 435-454): the base url, the
payments segment, the upstream transaction id, and the /actions suffix
exactly when the request is a multiple-capture sync. -/
def psync_get_url (base_url : String) (req : PaymentsSyncData) :
    Except ConnectorError String :=
  let suffix := match req.sync_type with
    | .MultipleCaptureSync _ => "/actions"
    | .SinglePaymentSync => ""
  match req.connector_transaction_id.get_connector_transaction_id with
  | .error e => .error e
  | .ok id => .ok (base_url ++ ("payments/") ++ id ++ suffix)

/-- Single-object upstream payment schema (transformers PaymentsResponse,
reduced to an id and a status string; modelled from the spec, the
transformers module being outside the provided sources). -/
structure PaymentsResponse where
  id : String
  status : String
  deriving DecidableEq

/-- Modelled from the spec: the shape of the raw upstream document returned
for a payment sync, which is either a single payment object or a list of
per-action records (the batch schema). -/
inductive PSyncUpstreamDocument where
  | singleObject (p : PaymentsResponse)
  | actionList (l : List ActionResponse)
  deriving DecidableEq

/-- Modelled from the spec: decoding the upstream document against the
single-object schema (serde parse of transformers PaymentsResponse); a
document of the other shape fails to deserialize. -/
def parse_payments_response (doc : PSyncUpstreamDocument) :
    Except ConnectorError PaymentsResponse :=
  match doc with
  | .singleObject p => .ok p
  | .actionList _ => .error ConnectorError.ResponseDeserializationFailed

/-- Modelled from the spec: decoding the upstream document against the
list-of-actions batch schema (serde parse of transformers
PaymentsResponseEnum); a document of the other shape fails to
deserialize. -/
def parse_payments_response_enum (doc : PSyncUpstreamDocument) :
    Except ConnectorError (List ActionResponse) :=
  match doc with
  | .actionList l => .ok l
  | .singleObject _ => .error ConnectorError.ResponseDeserializationFailed

/-- Canonical payment response (hyperswitch_domain_models
PaymentsResponseData): a transaction response for a single payment, a
multiple-capture response listing per-capture statuses for a batch. -/
inductive PaymentsResponseData where
  | TransactionResponse (resource_id : String) (status : String)
  | MultipleCaptureResponse (capture_sync_response_list : List (String × RefundStatus))
  deriving DecidableEq

/-- Modelled from the spec: the lossless conversion of the single-object
schema into the canonical payment response (transformers TryFrom, outside
the provided sources). -/
def payments_response_data_of_single (p : PaymentsResponse) :
    PaymentsResponseData :=
  PaymentsResponseData.TransactionResponse p.id p.status

/-- Modelled from the spec: the lossless conversion of the batch schema into
the canonical payment response (transformers TryFrom, outside the provided
sources), keyed per action. -/
def payments_response_data_of_actions (l : List ActionResponse) :
    PaymentsResponseData :=
  PaymentsResponseData.MultipleCaptureResponse
    (l.map (fun a => (a.action_id,
      if a.approved then RefundStatus.Success else RefundStatus.Failure)))

/-- PaymentSync handle_response (checkout.rs lines 471-512): branch on the
request sync_type; a multiple-capture sync decodes the batch schema and a
single payment sync decodes the single-object schema, each converging to the
canonical PaymentsResponseData placed in the response slot. -/
def psync_handle_response
    (data : RouterData PaymentsSyncData PaymentsResponseData)
    (doc : PSyncUpstreamDocument) :
    Except ConnectorError (RouterData PaymentsSyncData PaymentsResponseData) :=
  match data.request.sync_type with
  | .MultipleCaptureSync _ =>
      match parse_payments_response_enum doc with
      | .error e => .error e
      | .ok response =>
          .ok { data with response := .ok (payments_response_data_of_actions response) }
  | .SinglePaymentSync =>
      match parse_payments_response doc with
      | .error e => .error e
      | .ok response =>
          .ok { data with response := .ok (payments_response_data_of_single response) }

/-- Upstream webhook transaction types (transformers CheckoutTransactionType,
a representative closed subset; modelled from the spec, which classifies
events into chargeback-class, refund-class and payment-class). -/
inductive CheckoutTransactionType where
  | PaymentApproved
  | PaymentDeclined
  | PaymentRefunded
  | PaymentRefundDeclined
  | DisputeReceived
  | DisputeEvidenceSubmitted
  | DisputeWon
  | DisputeLost
  | DisputeExpired
  deriving DecidableEq

/-- Modelled from the spec: transformers is_chargeback_event (outside the
provided sources) recognizes the chargeback-class transaction types. -/
def is_chargeback_event (t : CheckoutTransactionType) : Bool :=
  match t with
  | .DisputeReceived | .DisputeEvidenceSubmitted | .DisputeWon
  | .DisputeLost | .DisputeExpired => true
  | _ => false

/-- Modelled from the spec: transformers is_refund_event (outside the
provided sources) recognizes the refund-class transaction types. -/
def is_refund_event (t : CheckoutTransactionType) : Bool :=
  match t with
  | .PaymentRefunded | .PaymentRefundDeclined => true
  | _ => false

/-- Data envelope of a webhook body (transformers CheckoutWebhookData, the
fields get_webhook_object_reference_id reads). -/
structure CheckoutWebhookData where
  id : String
  payment_id : Option String
  action_id : Option String
  reference : Option String
  deriving DecidableEq

/-- Minimal webhook body envelope (transformers CheckoutWebhookBody). -/
structure CheckoutWebhookBody where
  transaction_type : CheckoutTransactionType
  data : CheckoutWebhookData
  deriving DecidableEq

/-- Payment reference kinds (api_models PaymentIdType, the two variants the
source emits). -/
inductive PaymentIdType where
  | PaymentAttemptId (id : String)
  | ConnectorTransactionId (id : String)
  deriving DecidableEq

/-- Refund reference kinds (api_models RefundIdType). -/
inductive RefundIdType where
  | RefundId (id : String)
  | ConnectorRefundId (id : String)
  deriving DecidableEq

/-- Webhook object reference (api_models ObjectReferenceId). -/
inductive ObjectReferenceId where
  | PaymentId (p : PaymentIdType)
  | RefundId (r : RefundIdType)
  deriving DecidableEq

/-- IncomingWebhook::get_webhook_object_reference_id (checkout.rs lines
1204-1249), applied to the decoded webhook body: chargeback-class events
yield a PaymentId keyed by the merchant reference when present and otherwise
by the upstream payment id, failing when neither exists; refund-class events
yield a RefundId keyed by the merchant reference when present and otherwise
by the upstream action id, with the same failure; all other events yield a
PaymentId keyed by the merchant reference or the upstream id. -/
def get_webhook_object_reference_id (details : CheckoutWebhookBody) :
    Except ConnectorError ObjectReferenceId :=
  if is_chargeback_event details.transaction_type then
    match details.data.reference with
    | some reference =>
        .ok (ObjectReferenceId.PaymentId (PaymentIdType.PaymentAttemptId reference))
    | none =>
        match details.data.payment_id with
        | some payment_id =>
            .ok (ObjectReferenceId.PaymentId
              (PaymentIdType.ConnectorTransactionId payment_id))
        | none => .error ConnectorError.WebhookReferenceIdNotFound
  else if is_refund_event details.transaction_type then
    match details.data.reference with
    | some reference =>
        .ok (ObjectReferenceId.RefundId (RefundIdType.RefundId reference))
    | none =>
        match details.data.action_id with
        | some action_id =>
            .ok (ObjectReferenceId.RefundId (RefundIdType.ConnectorRefundId action_id))
        | none => .error ConnectorError.WebhookReferenceIdNotFound
  else
    match details.data.reference with
    | some reference =>
        .ok (ObjectReferenceId.PaymentId (PaymentIdType.PaymentAttemptId reference))
    | none =>
        .ok (ObjectReferenceId.PaymentId
          (PaymentIdType.ConnectorTransactionId details.data.id))

/-- Concrete credentials used to evaluate the theorems below. -/
def sample_auth : ConnectorAuthType :=
  ConnectorAuthType.SignatureKey ("the_api_key") ("the_channel_id") ("the_api_secret")

/-- A not-yet-populated response slot for concrete RouterData values. -/
def pending_error_response : ErrorResponse :=
  { status_code := 0, code := NO_ERROR_CODE, message := NO_ERROR_MESSAGE,
    reason := none, attempt_status := none, connector_transaction_id := none,
    network_advice_code := none, network_decline_code := none,
    network_error_message := none }

/-- A concrete refund-sync envelope tracking action id a2. -/
def sample_rsync_data : RouterData RefundsData RefundsResponseData :=
  { merchant_id := "merchant_1", connector_request_reference_id := "ref_1",
    connector_auth_type := sample_auth,
    request := { connector_transaction_id := "pay_1",
                 connector_refund_id := some ("a2") },
    response := .error pending_error_response }

/-- A concrete refund-sync envelope tracking an action id absent from the
sample upstream list. -/
def sample_rsync_data_absent : RouterData RefundsData RefundsResponseData :=
  { merchant_id := "merchant_1", connector_request_reference_id := "ref_1",
    connector_auth_type := sample_auth,
    request := { connector_transaction_id := "pay_1",
                 connector_refund_id := some ("a3") },
    response := .error pending_error_response }

/-- A concrete upstream action record with id a1. -/
def action_a1 : ActionResponse :=
  { action_id := "a1", approved := true, reference := none }

/-- A concrete upstream action record with id a2. -/
def action_a2 : ActionResponse :=
  { action_id := "a2", approved := true, reference := some ("ord_2") }

/-- A concrete payment-sync envelope flagged as a multiple-capture sync. -/
def sample_psync_multi_data : RouterData PaymentsSyncData PaymentsResponseData :=
  { merchant_id := "merchant_1", connector_request_reference_id := "ref_2",
    connector_auth_type := sample_auth,
    request := { connector_transaction_id := ResponseId.ConnectorTransactionId ("pay_7"),
                 sync_type := SyncRequestType.MultipleCaptureSync ["c1", "c2"] },
    response := .error pending_error_response }

/-- A concrete payment-sync envelope flagged as a single payment sync. -/
def sample_psync_single_data : RouterData PaymentsSyncData PaymentsResponseData :=
  { merchant_id := "merchant_1", connector_request_reference_id := "ref_3",
    connector_auth_type := sample_auth,
    request := { connector_transaction_id := ResponseId.ConnectorTransactionId ("pay_7"),
                 sync_type := SyncRequestType.SinglePaymentSync },
    response := .error pending_error_response }

/-- A concrete single-object upstream payment document. -/
def sample_payments_response : PaymentsResponse :=
  { id := "pay_7", status := "Captured" }

/-- A concrete chargeback-class webhook body carrying no merchant reference
but an upstream payment id pay_123, as in the spec example. -/
def sample_webhook_body : CheckoutWebhookBody :=
  { transaction_type := CheckoutTransactionType.DisputeReceived,
    data := { id := "evt_1", payment_id := some ("pay_123"),
              action_id := none, reference := none } }

/-- A concrete empty-body 401 response. -/
def sample_401_response : HttpResponse :=
  { status_code := 401, response := [] }

/-- A concrete empty-body 500 response. -/
def sample_500_response : HttpResponse :=
  { status_code := 500, response := [] }

/-- Helper: when one record satisfies the predicate and every satisfying
record equals it, find? returns exactly that record. -/
theorem find_action_eq_some (parsed : List ActionResponse) (r : String)
    (a : ActionResponse) (hmem : a ∈ parsed) (hid : a.action_id = r)
    (huniq : ∀ b ∈ parsed, b.action_id = r → b = a) :
    parsed.find? (fun x => x.action_id == r) = some a := by
  induction parsed with
  | nil => cases hmem
  | cons c t ih =>
    by_cases hc : c.action_id = r
    · have hca : c = a := huniq c (List.mem_cons_self c t) hc
      subst hca
      simp [List.find?_cons, hc]
    · have hmem2 : a ∈ t := by
        rcases List.mem_cons.mp hmem with h | h
        · exact absurd (h ▸ hid) hc
        · exact h
      have huniq2 : ∀ b ∈ t, b.action_id = r → b = a := fun b hb =>
        huniq b (List.mem_cons_of_mem c hb)
      have hcb : (c.action_id == r) = false := by simp [hc]
      simp [List.find?_cons, hcb]
      exact ih hmem2 huniq2

/-- Claim C4: the DisputeAccept, DisputeDefend and SubmitEvidence
handle_response functions never read the raw HTTP response: for every input
envelope and every raw response they return Ok of an envelope equal to the
input in every field except the response slot, which becomes a success with
dispute status DisputeAccepted (Accept) or DisputeChallenged (Defend and
SubmitEvidence) and connector_status none. -/
theorem dispute_flows_synthesize_response :
    ∀ (d1 : RouterData AcceptDisputeRequestData AcceptDisputeResponse)
      (d2 : RouterData SubmitEvidenceRequestData SubmitEvidenceResponse)
      (d3 : RouterData DefendDisputeRequestData DefendDisputeResponse)
      (r1 r2 r3 : HttpResponse),
      accept_dispute_handle_response d1 r1 =
        .ok { merchant_id := d1.merchant_id,
              connector_request_reference_id := d1.connector_request_reference_id,
              connector_auth_type := d1.connector_auth_type,
              request := d1.request,
              response := .ok { dispute_status := DisputeStatus.DisputeAccepted,
                                connector_status := none } } ∧
      submit_evidence_handle_response d2 r2 =
        .ok { merchant_id := d2.merchant_id,
              connector_request_reference_id := d2.connector_request_reference_id,
              connector_auth_type := d2.connector_auth_type,
              request := d2.request,
              response := .ok { dispute_status := DisputeStatus.DisputeChallenged,
                                connector_status := none } } ∧
      defend_dispute_handle_response d3 r3 =
        .ok { merchant_id := d3.merchant_id,
              connector_request_reference_id := d3.connector_request_reference_id,
              connector_auth_type := d3.connector_auth_type,
              request := d3.request,
              response := .ok { dispute_status := DisputeStatus.DisputeChallenged,
                                connector_status := none } } := by
  intro d1 d2 d3 r1 r2 r3
  exact ⟨rfl, rfl, rfl⟩

/-- Claim C5: capture-method validation accepts Automatic,
SequentialAutomatic, Manual and ManualMultiple, and rejects Scheduled with a
not-implemented error whose message names both the capture method and the
connector id checkout. -/
theorem validate_capture_method_spec :
    validate_connector_against_payment_request (some CaptureMethod.Automatic) = .ok () ∧
    validate_connector_against_payment_request (some CaptureMethod.SequentialAutomatic) = .ok () ∧
    validate_connector_against_payment_request (some CaptureMethod.Manual) = .ok () ∧
    validate_connector_against_payment_request (some CaptureMethod.ManualMultiple) = .ok () ∧
    validate_connector_against_payment_request (some CaptureMethod.Scheduled) =
      .error (construct_not_implemented_error_report CaptureMethod.Scheduled checkout_id) ∧
    construct_not_implemented_error_report CaptureMethod.Scheduled checkout_id =
      ConnectorError.NotImplemented
        ("scheduled not implemented for connector: checkout") := by
  refine ⟨rfl, rfl, rfl, rfl, rfl, ?_⟩
  rfl

/-- Claim C10: an absent capture method is defaulted to Automatic and is
accepted; it is never rejected. -/
theorem validate_capture_method_none_defaults_to_automatic :
    default_capture_method = CaptureMethod.Automatic ∧
    validate_connector_against_payment_request none =
      validate_connector_against_payment_request (some CaptureMethod.Automatic) ∧
    validate_connector_against_payment_request none = .ok () :=
  ⟨rfl, rfl, rfl⟩

/-- Claim C6: error classification is total: every error-code string maps to
one of the four ConnectorErrorType values and never fails, and every string
absent from the static table maps to UnknownError. -/
theorem get_connector_error_type_total
    (error_code error_message : String) :
    (get_connector_error_type error_code error_message = ConnectorErrorType.UserError ∨
     get_connector_error_type error_code error_message = ConnectorErrorType.BusinessError ∨
     get_connector_error_type error_code error_message = ConnectorErrorType.TechnicalError ∨
     get_connector_error_type error_code error_message = ConnectorErrorType.UnknownError) ∧
    (error_code ∉ checkout_error_table.map Prod.fst →
      get_connector_error_type error_code error_message =
        ConnectorErrorType.UnknownError) := by
  constructor
  · cases h : get_connector_error_type error_code error_message
    · exact Or.inl rfl
    · exact Or.inr (Or.inl rfl)
    · exact Or.inr (Or.inr (Or.inl rfl))
    · exact Or.inr (Or.inr (Or.inr rfl))
  · intro h
    have hnone : checkout_error_table.lookup error_code = none := by
      rw [List.lookup_eq_none_iff]
      intro p hp
      have hne : error_code ≠ p.1 :=
        fun he => h (he ▸ List.mem_map_of_mem Prod.fst hp)
      simp [hne]
    unfold get_connector_error_type
    rw [hnone]
    rfl

/-- Witness for claim C6 at a concrete code outside the table. -/
theorem get_connector_error_type_total_witness :
    ("some_unknown_code" ∉ checkout_error_table.map Prod.fst) ∧
    get_connector_error_type ("some_unknown_code") ("boom") =
      ConnectorErrorType.UnknownError :=
  ⟨by decide,
   (get_connector_error_type_total ("some_unknown_code") ("boom")).2 (by decide)⟩

/-- Claim C7: for DisputeEvidence uploads, any file larger than 4000000
bytes is rejected with FileValidationFailed regardless of MIME type, any
MIME type outside the allow-list is rejected with FileValidationFailed, and
any file of at most 4000000 bytes with an allow-listed MIME type is
accepted; in particular a 4500000-byte application/pdf is rejected. -/
theorem validate_file_upload_spec (file_size : Int) (file_type : String) :
    (file_size > 4000000 →
      validate_file_upload FilePurpose.DisputeEvidence file_size file_type =
        .error (ConnectorError.FileValidationFailed
          ("file_size exceeded the max file size of 4MB"))) ∧
    (supported_file_types.contains file_type = false →
      ∃ reason, validate_file_upload FilePurpose.DisputeEvidence file_size file_type =
        .error (ConnectorError.FileValidationFailed reason)) ∧
    (file_size ≤ 4000000 → supported_file_types.contains file_type = true →
      validate_file_upload FilePurpose.DisputeEvidence file_size file_type = .ok ()) ∧
    validate_file_upload FilePurpose.DisputeEvidence 4500000 ("application/pdf") =
      .error (ConnectorError.FileValidationFailed
        ("file_size exceeded the max file size of 4MB")) := by
  refine ⟨?_, ?_, ?_, ?_⟩
  · intro hbig
    simp [validate_file_upload, hbig]
  · intro hmime
    by_cases hbig : file_size > 4000000
    · exact ⟨("file_size exceeded the max file size of 4MB"),
        by simp [validate_file_upload, hbig]⟩
    · refine ⟨("file_type does not match JPEG, JPG, PNG, or PDF format"), ?_⟩
      simp at hmime
      simp [validate_file_upload, hbig, hmime]
  · intro hsize hmime
    have hbig : ¬ (file_size > 4000000) := not_lt.mpr hsize
    simp at hmime
    simp [validate_file_upload, hbig, hmime]
  · rfl

/-- Witness for claim C7 at concrete inputs: the oversized pdf is rejected
through the size branch and a small png is accepted. -/
theorem validate_file_upload_spec_witness :
    validate_file_upload FilePurpose.DisputeEvidence 4500000 ("application/pdf") =
      .error (ConnectorError.FileValidationFailed
        ("file_size exceeded the max file size of 4MB")) ∧
    validate_file_upload FilePurpose.DisputeEvidence 100 ("image/png") = .ok () :=
  ⟨(validate_file_upload_spec 4500000 ("application/pdf")).1 (by decide),
   (validate_file_upload_spec 100 ("image/png")).2.2.1 (by decide) (by decide)⟩

/-- Claim C1: for an upstream refund-sync response that parses as a list of
action records and a refund tracking connector refund id r, handle_response
returns the canonical refund response built from exactly the one record
whose action_id equals r, and fails with ResponseHandlingFailed when no
record matches. -/
theorem rsync_selects_tracked_action
    (data : RouterData RefundsData RefundsResponseData)
    (parsed : List ActionResponse) (r : String)
    (hr : data.request.connector_refund_id = some r) :
    (∀ a, a ∈ parsed → a.action_id = r →
      (∀ b, b ∈ parsed → b.action_id = r → b = a) →
      rsync_handle_response data parsed =
        .ok { data with response := .ok (refund_response_of_action a) }) ∧
    ((∀ b, b ∈ parsed → b.action_id ≠ r) →
      rsync_handle_response data parsed =
        .error ConnectorError.ResponseHandlingFailed) := by
  have hid : data.request.get_connector_refund_id = .ok r := by
    simp [RefundsData.get_connector_refund_id, hr]
  constructor
  · intro a hmem hida huniq
    have hfind := find_action_eq_some parsed r a hmem hida huniq
    simp [rsync_handle_response, hid, hfind]
  · intro hnone
    have hfind : parsed.find? (fun x => x.action_id == r) = none := by
      rw [List.find?_eq_none]
      intro x hx
      simp [hnone x hx]
    simp [rsync_handle_response, hid, hfind]

/-- Witness for claim C1 on the spec example: against the upstream list
[a1, a2], a refund tracking a2 yields the record for a2, and a refund
tracking the absent id a3 fails with ResponseHandlingFailed. -/
theorem rsync_selects_tracked_action_witness :
    rsync_handle_response sample_rsync_data [action_a1, action_a2] =
      .ok { sample_rsync_data with
            response := .ok (refund_response_of_action action_a2) } ∧
    rsync_handle_response sample_rsync_data_absent [action_a1, action_a2] =
      .error ConnectorError.ResponseHandlingFailed :=
  ⟨(rsync_selects_tracked_action sample_rsync_data [action_a1, action_a2]
      ("a2") rfl).1 action_a2 (by decide) rfl (by decide),
   (rsync_selects_tracked_action sample_rsync_data_absent [action_a1, action_a2]
      ("a3") rfl).2 (by decide)⟩

/-- Claim C2: for every raw response with an empty body,
build_error_response returns Ok; at status 401 it synthesizes the
invalid_api_key error type with an error-codes list of exactly one entry,
and the resulting error response carries that single invalid-api-key
code/message; at any other status the result carries the no-code and
no-message sentinels. -/
theorem build_error_response_empty_body
    (parse_result : Except ConnectorError CheckoutErrorResponse)
    (res : HttpResponse) (hempty : res.response.isEmpty = true) :
    ∃ er, build_error_response parse_result res = .ok er ∧
      er.status_code = res.status_code ∧
      (res.status_code = 401 →
        (empty_body_error_codes res.status_code).1 = some [("Invalid api key")] ∧
        (empty_body_error_codes res.status_code).2 = some ("invalid_api_key") ∧
        er.code = ("Invalid api key") ∧
        er.message = ("Invalid api key") ∧
        er.reason = some ("Invalid api key")) ∧
      (res.status_code ≠ 401 →
        er.code = NO_ERROR_CODE ∧ er.message = NO_ERROR_MESSAGE ∧
        er.reason = none) := by
  obtain ⟨sc, body⟩ := res
  have hbody : body = [] := by simpa using hempty
  subst hbody
  by_cases h401 : sc = 401
  · subst h401
    exact ⟨_, rfl, rfl, fun _ => ⟨rfl, rfl, rfl, rfl, rfl⟩,
           fun h => absurd rfl h⟩
  · have hbeq : (sc == 401) = false := by simpa using h401
    refine ⟨{ status_code := sc, code := NO_ERROR_CODE,
              message := NO_ERROR_MESSAGE, reason := none,
              attempt_status := none, connector_transaction_id := none,
              network_advice_code := none, network_decline_code := none,
              network_error_message := none },
            ?_, rfl, fun h => absurd h h401, fun _ => ⟨rfl, rfl, rfl⟩⟩
    simp [build_error_response, empty_body_error_codes, hbeq,
      get_error_code_error_message_based_on_priority]

/-- Witness for claim C2 at the concrete empty-body 401 and 500
responses. -/
theorem build_error_response_empty_body_witness :
    (∃ er, build_error_response (.error ConnectorError.ResponseDeserializationFailed)
        sample_401_response = .ok er ∧
      er.code = ("Invalid api key") ∧ er.reason = some ("Invalid api key")) ∧
    (∃ er, build_error_response (.error ConnectorError.ResponseDeserializationFailed)
        sample_500_response = .ok er ∧
      er.code = NO_ERROR_CODE ∧ er.message = NO_ERROR_MESSAGE) := by
  constructor
  · obtain ⟨er, h1, _, h3, _⟩ :=
      build_error_response_empty_body
        (.error ConnectorError.ResponseDeserializationFailed) sample_401_response rfl
    obtain ⟨_, _, hc, _, hr⟩ := h3 rfl
    exact ⟨er, h1, hc, hr⟩
  · obtain ⟨er, h1, _, _, h4⟩ :=
      build_error_response_empty_body
        (.error ConnectorError.ResponseDeserializationFailed) sample_500_response rfl
    obtain ⟨hc, hm, _⟩ := h4 (by decide)
    exact ⟨er, h1, hc, hm⟩

/-- Claim C3: the payment-sync URL carries the /actions suffix exactly when
the request is a multiple-capture sync, and handle_response branches on the
same discriminant: a multiple-capture sync decodes only the list-of-actions
batch schema and a single payment sync decodes only the single-object
schema, both converging to the canonical PaymentsResponseData. -/
theorem psync_url_and_parse_branch (base_url : String) (req : PaymentsSyncData)
    (data : RouterData PaymentsSyncData PaymentsResponseData) :
    (∀ id, req.connector_transaction_id = ResponseId.ConnectorTransactionId id →
      psync_get_url base_url req =
        .ok (base_url ++ ("payments/") ++ id ++
          (if req.sync_type.is_multiple_capture = true then ("/actions") else ("")))) ∧
    (data.request.sync_type.is_multiple_capture = true →
      (∀ l, psync_handle_response data (PSyncUpstreamDocument.actionList l) =
        .ok { data with response := .ok (payments_response_data_of_actions l) }) ∧
      (∀ p, psync_handle_response data (PSyncUpstreamDocument.singleObject p) =
        .error ConnectorError.ResponseDeserializationFailed)) ∧
    (data.request.sync_type.is_multiple_capture = false →
      (∀ p, psync_handle_response data (PSyncUpstreamDocument.singleObject p) =
        .ok { data with response := .ok (payments_response_data_of_single p) }) ∧
      (∀ l, psync_handle_response data (PSyncUpstreamDocument.actionList l) =
        .error ConnectorError.ResponseDeserializationFailed)) := by
  refine ⟨?_, ?_, ?_⟩
  · intro id hid
    cases hst : req.sync_type <;>
      simp [psync_get_url, hid, hst, ResponseId.get_connector_transaction_id,
        SyncRequestType.is_multiple_capture]
  · intro hmulti
    cases hst : data.request.sync_type with
    | MultipleCaptureSync ids =>
        exact ⟨fun l => by
            simp [psync_handle_response, hst, parse_payments_response_enum],
          fun p => by
            simp [psync_handle_response, hst, parse_payments_response_enum]⟩
    | SinglePaymentSync =>
        rw [hst] at hmulti
        simp [SyncRequestType.is_multiple_capture] at hmulti
  · intro hsingle
    cases hst : data.request.sync_type with
    | MultipleCaptureSync ids =>
        rw [hst] at hsingle
        simp [SyncRequestType.is_multiple_capture] at hsingle
    | SinglePaymentSync =>
        exact ⟨fun p => by
            simp [psync_handle_response, hst, parse_payments_response],
          fun l => by
            simp [psync_handle_response, hst, parse_payments_response]⟩

/-- Witness for claim C3 at concrete multi-capture and single-payment sync
requests: the URLs with and without the /actions suffix, and all four
parse-branch outcomes. -/
theorem psync_url_and_parse_branch_witness :
    psync_get_url ("https://api.checkout.com/") sample_psync_multi_data.request =
      .ok ("https://api.checkout.com/payments/pay_7/actions") ∧
    psync_get_url ("https://api.checkout.com/") sample_psync_single_data.request =
      .ok ("https://api.checkout.com/payments/pay_7") ∧
    psync_handle_response sample_psync_multi_data
        (PSyncUpstreamDocument.actionList [action_a1]) =
      .ok { sample_psync_multi_data with
            response := .ok (payments_response_data_of_actions [action_a1]) } ∧
    psync_handle_response sample_psync_multi_data
        (PSyncUpstreamDocument.singleObject sample_payments_response) =
      .error ConnectorError.ResponseDeserializationFailed ∧
    psync_handle_response sample_psync_single_data
        (PSyncUpstreamDocument.singleObject sample_payments_response) =
      .ok { sample_psync_single_data with
            response := .ok (payments_response_data_of_single sample_payments_response) } ∧
    psync_handle_response sample_psync_single_data
        (PSyncUpstreamDocument.actionList [action_a1]) =
      .error ConnectorError.ResponseDeserializationFailed := by
  have hm := psync_url_and_parse_branch ("https://api.checkout.com/")
    sample_psync_multi_data.request sample_psync_multi_data
  have hs := psync_url_and_parse_branch ("https://api.checkout.com/")
    sample_psync_single_data.request sample_psync_single_data
  exact ⟨hm.1 ("pay_7") rfl, hs.1 ("pay_7") rfl,
    (hm.2.1 rfl).1 [action_a1], (hm.2.1 rfl).2 sample_payments_response,
    (hs.2.2 rfl).1 sample_payments_response, (hs.2.2 rfl).2 [action_a1]⟩

/-- Counterexample to claim C8 as stated: for credentials whose api key and
api secret differ, the Tokenize flow emits Bearer followed by the api key,
not the api secret used by every other flow. -/
theorem tokenize_auth_header_counterexample :
    tokenization_get_headers sample_auth =
      .ok [(CONTENT_TYPE, common_get_content_type),
           (AUTHORIZATION, ("Bearer the_api_key"))] ∧
    get_auth_header sample_auth =
      .ok [(AUTHORIZATION, ("Bearer the_api_secret"))] ∧
    ("Bearer the_api_key") ≠ ("Bearer the_api_secret") := by
  refine ⟨rfl, rfl, ?_⟩
  decide

/-- Claim C8 as amended: header construction fails with
FailedToObtainAuthType whenever the credentials are not the SignatureKey
shape; otherwise the shared auth header and the generic flow headers carry
Authorization Bearer api_secret, while the Tokenize flow headers carry
Authorization Bearer api_key. -/
theorem auth_header_spec (auth : ConnectorAuthType) :
    ((∀ k c s, auth ≠ ConnectorAuthType.SignatureKey k c s) →
      get_auth_header auth = .error ConnectorError.FailedToObtainAuthType ∧
      build_headers auth = .error ConnectorError.FailedToObtainAuthType ∧
      tokenization_get_headers auth =
        .error ConnectorError.FailedToObtainAuthType) ∧
    (∀ k c s, auth = ConnectorAuthType.SignatureKey k c s →
      get_auth_header auth = .ok [(AUTHORIZATION, ("Bearer ") ++ s)] ∧
      build_headers auth =
        .ok [(CONTENT_TYPE, common_get_content_type),
             (AUTHORIZATION, ("Bearer ") ++ s)] ∧
      tokenization_get_headers auth =
        .ok [(CONTENT_TYPE, common_get_content_type),
             (AUTHORIZATION, ("Bearer ") ++ k)]) := by
  constructor
  · intro hne
    cases auth with
    | SignatureKey k c s => exact absurd rfl (hne k c s)
    | HeaderKey k => exact ⟨rfl, rfl, rfl⟩
    | BodyKey k c => exact ⟨rfl, rfl, rfl⟩
    | NoKey => exact ⟨rfl, rfl, rfl⟩
  · intro k c s heq
    subst heq
    exact ⟨rfl, rfl, rfl⟩

/-- Witness for the amended claim C8 at concrete credentials: the matching
shape yields the Bearer secret header, and a non-matching shape fails with
FailedToObtainAuthType. -/
theorem auth_header_spec_witness :
    get_auth_header sample_auth =
      .ok [(AUTHORIZATION, ("Bearer ") ++ ("the_api_secret"))] ∧
    tokenization_get_headers (ConnectorAuthType.HeaderKey ("k")) =
      .error ConnectorError.FailedToObtainAuthType :=
  ⟨((auth_header_spec sample_auth).2 ("the_api_key") ("the_channel_id")
      ("the_api_secret") rfl).1,
   ((auth_header_spec (ConnectorAuthType.HeaderKey ("k"))).1
      (fun _ _ _ h => ConnectorAuthType.noConfusion h)).2.2⟩

/-- Claim C9: on a chargeback-class webhook body the reference is a
PaymentId keyed by the merchant reference when present and otherwise by the
upstream payment id, failing with WebhookReferenceIdNotFound when neither
is present; on a refund-class body it is a RefundId keyed by the merchant
reference when present and otherwise by the upstream action id, with the
same failure when neither is present. -/
theorem webhook_reference_id_spec (details : CheckoutWebhookBody) :
    (is_chargeback_event details.transaction_type = true →
      (∀ r, details.data.reference = some r →
        get_webhook_object_reference_id details =
          .ok (ObjectReferenceId.PaymentId (PaymentIdType.PaymentAttemptId r))) ∧
      (details.data.reference = none →
        (∀ p, details.data.payment_id = some p →
          get_webhook_object_reference_id details =
            .ok (ObjectReferenceId.PaymentId
              (PaymentIdType.ConnectorTransactionId p))) ∧
        (details.data.payment_id = none →
          get_webhook_object_reference_id details =
            .error ConnectorError.WebhookReferenceIdNotFound))) ∧
    (is_chargeback_event details.transaction_type = false →
      is_refund_event details.transaction_type = true →
      (∀ r, details.data.reference = some r →
        get_webhook_object_reference_id details =
          .ok (ObjectReferenceId.RefundId (RefundIdType.RefundId r))) ∧
      (details.data.reference = none →
        (∀ a, details.data.action_id = some a →
          get_webhook_object_reference_id details =
            .ok (ObjectReferenceId.RefundId (RefundIdType.ConnectorRefundId a))) ∧
        (details.data.action_id = none →
          get_webhook_object_reference_id details =
            .error ConnectorError.WebhookReferenceIdNotFound))) := by
  constructor
  · intro hcb
    refine ⟨fun r hr => ?_, fun hnone => ⟨fun p hp => ?_, fun hpnone => ?_⟩⟩ <;>
      simp [get_webhook_object_reference_id, hcb, *]
  · intro hcb hrf
    refine ⟨fun r hr => ?_, fun hnone => ⟨fun a ha => ?_, fun hanone => ?_⟩⟩ <;>
      simp [get_webhook_object_reference_id, hcb, hrf, *]

/-- Witness for claim C9 on the spec example: a chargeback-class body with
no merchant reference and upstream payment id pay_123 yields
PaymentId(ConnectorTransactionId pay_123). -/
theorem webhook_reference_id_spec_witness :
    get_webhook_object_reference_id sample_webhook_body =
      .ok (ObjectReferenceId.PaymentId
        (PaymentIdType.ConnectorTransactionId ("pay_123"))) :=
  (((webhook_reference_id_spec sample_webhook_body).1 rfl).2 rfl).1
    ("pay_123") rfl

end CheckoutSpec
